import Mathlib

/-!
Shallow embedding of the luna-tarot-tma spread-draft core.

The embedding follows the frontend sources:
* tma_frontend/src/TarotCarousel.jsx (picker mode): the deck carousel,
  cursor resolution and the duplicate-avoiding handlePick.
* tma_frontend/src/screens/SpreadsScreen.jsx: the draft state (spread type,
  category, custom question, picked cards), buildPayload, the submit
  validation and handleSubmit.
* tma_frontend/src/App.jsx: handleCreateSpread / handleResetCurrentSpread,
  the app-level current-spread state.
* tma_frontend/src/api/client.js: apiRequest.

React useState fields become record fields; setter calls become functional
updates; the callbacks onPickCard / onPick become explicit data flow.
JS number arithmetic on cursors is embedded as Int with the JS remainder
(sign of the dividend) written Int.tmod.
-/

/-- A catalogue card; only the fields the core reads (code is the identity
used for deduplication, name is carried along for display). -/
structure Card where
  code : String
  name : String
deriving Repr, DecidableEq

/-- The spread type of the draft: "one" | "three". -/
inductive SpreadType where
  | one
  | three
deriving Repr, DecidableEq

/-- SpreadsScreen: maxCards = spreadType === "one" ? 1 : 3. -/
def requiredCardCount : SpreadType → Nat
  | .one => 1
  | .three => 3

/-- TarotCarousel.jsx: fallback deck size when no deck prop is supplied. -/
def TOTAL_CARDS : Nat := 78

/-- The picker state inside TarotCarouselPicker: the current cursor
(currentIndex, a JS number driven by scrolling) and the list of already
picked catalogue indices (usedIndices). -/
structure PickerState where
  currentIndex : Int
  usedIndices : List Nat
deriving Repr, DecidableEq

/-- cardsArray length in TarotCarouselPicker: the deck when nonempty,
otherwise 78 placeholder stubs. -/
def cardsCountOf (deck : List Card) : Nat :=
  if deck.length = 0 then TOTAL_CARDS else deck.length

/-- The JS expression ((i % n) + n) % n, with the JS remainder (sign of the
dividend, Int.tmod); used by handleScroll and handlePick to resolve the
free-running cursor to a real catalogue index. -/
def jsSafeIndex (i : Int) (n : Nat) : Nat :=
  (Int.tmod (Int.tmod i (n : Int) + (n : Int)) (n : Int)).toNat

/-- clampIndex from the unnamed carousel iteration (src/unnamed/part_012):
mod = index % cardsCount; mod < 0 ? mod + cardsCount : mod. -/
def clampIndex (index : Int) (n : Nat) : Int :=
  let m := Int.tmod index (n : Int)
  if m < 0 then m + (n : Int) else m

/-- The safeIndex chosen by handlePick: the resolved cursor if its index is
not yet used; otherwise available[0], the first unused catalogue index in
index order (available = all indices minus usedIndices); none when every
index is used (the code then returns early). -/
def pickIndex (deck : List Card) (ps : PickerState) : Option Nat :=
  let cardsCount := cardsCountOf deck
  let safe := jsSafeIndex ps.currentIndex cardsCount
  if safe ∈ ps.usedIndices then
    ((List.range cardsCount).filter (fun i => ¬ i ∈ ps.usedIndices)).head?
  else
    some safe

/-- handlePick from TarotCarouselPicker. Returns the new picker state and
the card passed to onPickCard (none when no card is delivered: exhausted
available list, or a placeholder slot when the deck prop is absent).
The source guard if (!cardsCount) return never fires since cardsCountOf
is positive; the exhausted branch returns with the state unchanged;
otherwise usedIndices is extended by [safeIndex] and
selectedCard = deckArray[safeIndex] when the deck is nonempty. -/
def handlePick (deck : List Card) (ps : PickerState) : PickerState × Option Card :=
  match pickIndex deck ps with
  | none => (ps, none)
  | some s =>
      ({ ps with usedIndices := ps.usedIndices ++ [s] }, deck.get? s)

/-- The SpreadsScreen draft state: one record field per useState hook of
the creation form. -/
structure DraftState where
  spreadType : SpreadType
  category : Option String
  customQuestion : String
  useCustomQuestion : Bool
  pickedCards : List Card
  isSubmitting : Bool
  error : Option String
deriving Repr, DecidableEq

/-- The initial useState values of SpreadsScreen. -/
def initialDraft : DraftState :=
  { spreadType := .one
    category := some "general"
    customQuestion := ""
    useCustomQuestion := false
    pickedCards := []
    isSubmitting := false
    error := none }

/-- JS falsiness of a string-or-null value (null and "" are falsy). -/
def strOptFalsy : Option String → Bool
  | none => true
  | some s => s.isEmpty

/-- handleChangeSpreadType: sets the type, clears the error, re-defaults
category / question / toggle per type, and (through the useEffect keyed on
spreadType) resets pickedCards. The useEffect fires whenever spreadType
changes; when the same type is re-selected pickedCards is untouched, but
every claim below applies this operation at its initial use where
pickedCards is empty either way. -/
def handleChangeSpreadType (ds : DraftState) (nextType : SpreadType) : DraftState :=
  { ds with
    spreadType := nextType
    error := none
    category := some (match nextType with | .one => "daily" | .three => "general")
    customQuestion := ""
    useCustomQuestion := false
    pickedCards := [] }

/-- handleCategoryChange: ignored while useCustomQuestion is true;
otherwise sets the category, clears the custom question and the error. -/
def handleCategoryChange (ds : DraftState) (nextCat : String) : DraftState :=
  if ds.useCustomQuestion then ds
  else { ds with category := some nextCat, customQuestion := "", error := none }

/-- handleCustomQuestionChange: stores the raw text, clears the error. -/
def handleCustomQuestionChange (ds : DraftState) (value : String) : DraftState :=
  { ds with customQuestion := value, error := none }

/-- toggleUseCustomQuestion: toggling on nulls the category; toggling off
clears the question and restores the "general" default when the category
is falsy (null or empty). -/
def toggleUseCustomQuestion (ds : DraftState) : DraftState :=
  let next := !ds.useCustomQuestion
  if next then
    { ds with useCustomQuestion := next, error := none, category := none }
  else
    { ds with
      useCustomQuestion := next
      error := none
      category := if strOptFalsy ds.category then some "general" else ds.category
      customQuestion := "" }

/-- The onPickCard callback SpreadsScreen passes to the carousel: appends
the delivered card to pickedCards and clears the error. -/
def onPickCard (ds : DraftState) (card : Card) : DraftState :=
  { ds with pickedCards := ds.pickedCards ++ [card], error := none }

/-- The outbound request body built by SpreadsScreen buildPayload. -/
structure Payload where
  mode : String
  spread_type : String
  category : Option String
  question : Option String
  cards : List String
deriving Repr, DecidableEq

/-- buildPayload from SpreadsScreen: for "one" both category and question
are null (the comment in the source says the backend fills in "daily");
for "three" with useCustomQuestion the trimmed question is sent and the
category is null; otherwise category || "general" is sent and the question
is null. -/
def buildPayload (ds : DraftState) : Payload :=
  let cardsCodes := ds.pickedCards.map Card.code
  match ds.spreadType with
  | .one =>
      { mode := "interactive", spread_type := "one", category := none
        question := none, cards := cardsCodes }
  | .three =>
      let trimmedQuestion := ds.customQuestion.trim
      if ds.useCustomQuestion then
        { mode := "interactive", spread_type := "three", category := none
          question := some trimmedQuestion, cards := cardsCodes }
      else
        let effectiveCategory :=
          if strOptFalsy ds.category then "general" else ds.category.getD ""
        { mode := "interactive", spread_type := "three", category := some effectiveCategory
          question := none, cards := cardsCodes }

/-- The validation sequence at the top of handleSubmit, in source order:
for "three" with useCustomQuestion an empty trimmed question fails; for
"three" without it a falsy category fails; then an incomplete card pick
fails. Returns the error message set by the failing check. -/
def validationError (ds : DraftState) : Option String :=
  let threeCheck : Option String :=
    match ds.spreadType with
    | .one => none
    | .three =>
        if ds.useCustomQuestion then
          if ds.customQuestion.trim.isEmpty then
            some "Пожалуйста, сформулируйте ваш вопрос."
          else none
        else
          if strOptFalsy ds.category then
            some "Пожалуйста, выберите категорию расклада."
          else none
  match threeCheck with
  | some msg => some msg
  | none =>
      if ds.pickedCards.length < requiredCardCount ds.spreadType then
        some "Сначала выберите все карты, а потом сделайте расклад."
      else none

/-- The submit-validity predicate: handleSubmit proceeds to the network
call exactly when no validation check fires. -/
def isReadyToSubmit (ds : DraftState) : Bool :=
  (validationError ds).isNone

/-- Outcome of the awaited onCreateSpread call. -/
inductive NetResult where
  | success
  | failure
deriving Repr, DecidableEq

/-- handleSubmit from SpreadsScreen, as a function of the pre-state, the
presence of the onCreateSpread prop, and the eventual network outcome.
Returns the post-state and the list of payloads passed to onCreateSpread.
The guard returns untouched when the prop is missing or a submission is in
flight; a failed validation only sets the error message; otherwise the
payload is built and sent once, the catch stores the failure message, and
the finally clause drops isSubmitting back to false. -/
def handleSubmit (ds : DraftState) (hasHandler : Bool) (net : NetResult) :
    DraftState × List Payload :=
  if !hasHandler || ds.isSubmitting then
    (ds, [])
  else
    match validationError ds with
    | some msg => ({ ds with error := some msg }, [])
    | none =>
        let payload := buildPayload ds
        match net with
        | .success => ({ ds with isSubmitting := false, error := none }, [payload])
        | .failure =>
            ({ ds with
               isSubmitting := false
               error := some "Не удалось сделать расклад. Попробуйте ещё раз." }, [payload])

/-- One user pick event against the combined picker + draft state. The
carousel renders only while isDone is false (pickedCount below maxCards),
so a full draft cannot be picked into; the cursor sits wherever the user
scrolled it; the pick button runs handlePick, whose onPickCard callback
appends the delivered card to the draft. -/
def pickStep (deck : List Card) (s : PickerState × DraftState) (cursor : Int) :
    PickerState × DraftState :=
  let (ps, ds) := s
  if ds.pickedCards.length ≥ requiredCardCount ds.spreadType then
    (ps, ds)
  else
    match handlePick deck { ps with currentIndex := cursor } with
    | (ps2, some card) => (ps2, onPickCard ds card)
    | (ps2, none) => (ps2, ds)

/-- A sequence of pick events, each at the cursor position the user
scrolled to before pressing the pick button. -/
def runPicks (deck : List Card) (s : PickerState × DraftState) :
    List Int → PickerState × DraftState
  | [] => s
  | c :: cs => runPicks deck (pickStep deck s c) cs

/-- The picker state at mount: currentIndex 0, no used indices. -/
def initPicker : PickerState :=
  { currentIndex := 0, usedIndices := [] }

/-- The operations the C5 claim ranges over: setCategory,
setCustomQuestionEnabled (the toggle) and setCustomQuestionText, as
implemented by SpreadsScreen. -/
inductive CatOp where
  | setCat (c : String)
  | toggleCustom
  | setText (t : String)
deriving Repr, DecidableEq

/-- Dispatch one category/question operation. -/
def applyCatOp (ds : DraftState) : CatOp → DraftState
  | .setCat c => handleCategoryChange ds c
  | .toggleCustom => toggleUseCustomQuestion ds
  | .setText t => handleCustomQuestionChange ds t

/-- Apply a sequence of category/question operations, first to last. -/
def runCatOps (ds : DraftState) : List CatOp → DraftState
  | [] => ds
  | op :: ops => runCatOps (applyCatOp ds op) ops

/-- The server record stored by App.jsx as currentSpread; the core only
stores it, so the embedding keeps just an identifier. -/
structure SpreadDetail where
  id : Nat
deriving Repr, DecidableEq

/-- The App.jsx state the spread tab reads: currentSpread selects between
the picking form (null) and the result view (non-null). -/
structure AppState where
  currentSpread : Option SpreadDetail
  loading : Bool
  isInterpreting : Bool
  error : Option String
deriving Repr, DecidableEq

/-- The synchronous prefix of handleCreateSpread, run when submit fires:
loading and isInterpreting go up, the error clears; then the POST /spreads
call is in flight. -/
def handleCreateSpreadStart (st : AppState) : AppState :=
  { st with loading := true, error := none, isInterpreting := true }

/-- The continuation of handleCreateSpread once the POST resolves, applied
to whatever the App state is at that moment: a successful response is
stored unconditionally into currentSpread (there is no generation token);
a failure stores an error message; the finally clause clears the flags. -/
def handleCreateSpreadResolve (st : AppState) (res : Option SpreadDetail) : AppState :=
  match res with
  | some detail =>
      { st with
        currentSpread := some detail
        loading := false
        isInterpreting := false }
  | none =>
      { st with
        error := some "Не удалось создать расклад"
        loading := false
        isInterpreting := false }

/-- handleResetCurrentSpread from App.jsx: drops the current spread back
to null (the picking form) and resets the Q&A state. -/
def handleResetCurrentSpread (st : AppState) : AppState :=
  { st with currentSpread := none }

/-- JSON values, the shape of parsed response bodies in api/client.js. -/
inductive Json where
  | null
  | bool (b : Bool)
  | num (n : Int)
  | str (s : String)
  | arr (elems : List Json)
  | obj (fields : List (String × Json))

/-- JS truthiness of a JSON value. -/
def jsTruthy : Json → Bool
  | .null => false
  | .bool b => b
  | .num n => n != 0
  | .str s => !s.isEmpty
  | .arr _ => true
  | .obj _ => true

/-- Optional-chaining property access: json?.k is the field when json is
an object holding it, otherwise undefined (none). -/
def Json.getField : Json → String → Option Json
  | .obj fields, k => (fields.find? (fun p => p.1 == k)).map (fun p => p.2)
  | _, _ => none

/-- JS x || null over an optional-chained access. -/
def jsOrNull (v : Option Json) : Json :=
  match v with
  | some j => if jsTruthy j then j else .null
  | none => .null

/-- JS x || d over an optional-chained access. -/
def jsOrElse (v : Option Json) (d : Json) : Json :=
  match v with
  | some j => if jsTruthy j then j else d
  | none => d

/-- The uniform record apiRequest resolves with: { ok, data, error }. -/
structure ApiResult where
  ok : Bool
  data : Json
  error : Json

/-- Everything the environment decides about one request: the fetch either
rejects (network error) or resolves with a status and a body; body none
means res.json() throws (unparseable). -/
inductive FetchOutcome where
  | networkError
  | response (status : Nat) (body : Option Json)

/-- res.ok per the fetch specification: status in [200, 300). -/
def statusOk (status : Nat) : Bool :=
  200 ≤ status && status < 300

/-- apiRequest from api/client.js as a function of the fetch outcome: a
rejected fetch becomes ok:false "Network error"; 204 becomes ok:true with
null data; an unparseable body becomes ok:false "Invalid JSON response";
a non-2xx status becomes ok:false carrying json?.data || null and
json?.error || a fallback message; a parsed 2xx body is ok:true. -/
def apiRequest (outcome : FetchOutcome) : ApiResult :=
  match outcome with
  | .networkError =>
      { ok := false, data := .null, error := .obj [("message", .str "Network error")] }
  | .response status body =>
      if status = 204 then
        { ok := true, data := .null, error := .null }
      else
        match body with
        | none =>
            { ok := false, data := .null
              error := .obj [("message", .str "Invalid JSON response")] }
        | some json =>
            if !(statusOk status) then
              { ok := false
                data := jsOrNull (json.getField "data")
                error := jsOrElse (json.getField "error") (.obj [("message", .str "API error")]) }
            else
              { ok := true, data := json, error := .null }

/-- A request succeeded when the fetch resolved and the response was 204
or a parseable 2xx body. -/
def requestSucceeded (outcome : FetchOutcome) : Bool :=
  match outcome with
  | .networkError => false
  | .response status body => status = 204 || (statusOk status && body.isSome)

/-- The truncated remainder stays strictly above the negated (positive)
divisor. -/
lemma tmod_gt_neg (i : Int) {n : Int} (h : 0 < n) : -n < Int.tmod i n := by
  rcases i with m | m
  · have h0 : 0 ≤ Int.tmod (Int.ofNat m) n := Int.tmod_nonneg n (Int.ofNat_nonneg m)
    omega
  · rcases n with k | k
    · rcases k with _ | k
      · simp only [Int.ofNat_eq_natCast] at h
        omega
      · have heq : Int.tmod (Int.negSucc m) (Int.ofNat (k+1))
            = -(((m+1) % (k+1) : Nat) : Int) := rfl
        have hlt : (m+1) % (k+1) < k+1 := Nat.mod_lt _ (Nat.succ_pos k)
        rw [heq]
        simp only [Int.ofNat_eq_natCast]
        omega
    · have h2 := Int.negSucc_lt_zero k
      omega

/-- The truncated remainder agrees with the dividend modulo n. -/
lemma tmod_emod (i n : Int) : Int.tmod i n % n = i % n := by
  conv_rhs => rw [← Int.tmod_add_tdiv i n]
  rw [Int.add_mul_emod_self_left]

/-- The carousel resolution ((i % n) + n) % n written with the JS
remainder equals the mathematical (Euclidean) remainder. -/
lemma jsSafeIndex_eq_emod (i : Int) {n : Nat} (h : 0 < n) :
    (jsSafeIndex i n : Int) = i % (n : Int) := by
  unfold jsSafeIndex
  have hn : (0 : Int) < (n : Int) := by exact_mod_cast h
  have h1 : -(n : Int) < Int.tmod i n := tmod_gt_neg i hn
  have h3 : 0 ≤ Int.tmod i n + n := by omega
  rw [Int.tmod_eq_emod h3 (Int.le_of_lt hn), Int.add_emod_self, tmod_emod]
  exact Int.toNat_of_nonneg (Int.emod_nonneg i (by omega))

/-- The resolved index lands inside the catalogue. -/
lemma jsSafeIndex_lt (i : Int) {n : Nat} (h : 0 < n) : jsSafeIndex i n < n := by
  have h0 := jsSafeIndex_eq_emod i h
  have hn : (0 : Int) < (n : Int) := by exact_mod_cast h
  have h2 : i % (n : Int) < n := Int.emod_lt_of_pos i hn
  omega

/-- clampIndex from the unnamed carousel iteration computes the same
Euclidean remainder. -/
lemma clampIndex_eq_emod (i : Int) {n : Nat} (h : 0 < n) :
    clampIndex i n = i % (n : Int) := by
  unfold clampIndex
  have hn : (0 : Int) < (n : Int) := by exact_mod_cast h
  have h1 : -(n : Int) < Int.tmod i n := tmod_gt_neg i hn
  have h2 : Int.tmod i n < n := Int.tmod_lt_of_pos i hn
  by_cases hm : Int.tmod i n < 0
  · simp only [hm, if_true]
    have h4 : (Int.tmod i n + n) % n = i % n := by
      rw [Int.add_emod_self, tmod_emod]
    rw [← h4]
    exact (Int.emod_eq_of_lt (by omega) (by omega)).symm
  · simp only [hm, if_false]
    have h4 : Int.tmod i n % n = i % n := tmod_emod i n
    rw [← h4]
    exact (Int.emod_eq_of_lt (by omega) (by omega)).symm

/-- Placeholder card, never actually read by the total deck lookup. -/
def dummyCard : Card := { code := "", name := "" }

/-- Total lookup into the deck (every index recorded by the picker is
below the deck length, so the default is never read). -/
def dget (deck : List Card) (i : Nat) : Card := deck.getD i dummyCard

/-- Coupling invariant between the picker and the draft along pick events:
the draft holds exactly the cards of the used indices, in pick order; used
indices never repeat and stay inside the catalogue. -/
def PickInv (deck : List Card) (ps : PickerState) (ds : DraftState) : Prop :=
  ds.pickedCards = ps.usedIndices.map (dget deck) ∧
  ps.usedIndices.Nodup ∧
  ∀ i ∈ ps.usedIndices, i < deck.length

lemma cardsCountOf_pos (deck : List Card) : 0 < cardsCountOf deck := by
  unfold cardsCountOf TOTAL_CARDS
  split <;> omega

lemma cardsCountOf_eq (deck : List Card) (hne : deck ≠ []) :
    cardsCountOf deck = deck.length := by
  unfold cardsCountOf
  rw [if_neg]
  intro h
  exact hne (List.length_eq_zero.mp h)

/-- When handlePick settles on an index, that index is fresh and inside
the (nonempty) catalogue. -/
lemma pickIndex_some (deck : List Card) (hne : deck ≠ []) {ps : PickerState} {s : Nat}
    (h : pickIndex deck ps = some s) : s < deck.length ∧ s ∉ ps.usedIndices := by
  unfold pickIndex at h
  by_cases hs : jsSafeIndex ps.currentIndex (cardsCountOf deck) ∈ ps.usedIndices
  · simp only [hs, if_true] at h
    rcases List.head?_eq_some_iff.mp h with ⟨ys, hys⟩
    have hmem : s ∈ (List.range (cardsCountOf deck)).filter
        (fun i => decide (¬ i ∈ ps.usedIndices)) := by
      rw [hys]
      exact List.mem_cons_self s ys
    have h2 := List.mem_filter.mp hmem
    refine ⟨?_, ?_⟩
    · have h3 := List.mem_range.mp h2.1
      rwa [cardsCountOf_eq deck hne] at h3
    · simpa using h2.2
  · simp only [hs, if_false, Option.some.injEq] at h
    subst h
    refine ⟨?_, hs⟩
    have h3 := jsSafeIndex_lt ps.currentIndex (cardsCountOf_pos deck)
    rwa [cardsCountOf_eq deck hne] at h3 ⊢

lemma handlePick_some (deck : List Card) {ps ps2 : PickerState} {card : Card}
    (h : handlePick deck ps = (ps2, some card)) :
    ∃ s, pickIndex deck ps = some s ∧
      ps2 = { ps with usedIndices := ps.usedIndices ++ [s] } ∧
      deck.get? s = some card := by
  unfold handlePick at h
  cases hpi : pickIndex deck ps with
  | none =>
      rw [hpi] at h
      simp at h
  | some s =>
      rw [hpi] at h
      have h1 := congrArg Prod.fst h
      have h2 := congrArg Prod.snd h
      simp only at h1 h2
      exact ⟨s, rfl, h1.symm, h2⟩

lemma handlePick_none (deck : List Card) (hne : deck ≠ []) {ps ps2 : PickerState}
    (h : handlePick deck ps = (ps2, none)) : ps2 = ps := by
  unfold handlePick at h
  cases hpi : pickIndex deck ps with
  | none =>
      rw [hpi] at h
      simpa using (congrArg Prod.fst h).symm
  | some s =>
      rw [hpi] at h
      have hs := (pickIndex_some deck hne hpi).1
      have h2 := congrArg Prod.snd h
      simp only at h2
      rw [List.get?_eq_getElem?, List.getElem?_eq_getElem hs] at h2
      simp at h2

lemma dget_eq_of_get? (deck : List Card) {s : Nat} {card : Card}
    (h : deck.get? s = some card) : dget deck s = card := by
  unfold dget
  rw [List.getD_eq_getElem?_getD, ← List.get?_eq_getElem?, h]
  rfl

lemma pickStep_inv (deck : List Card) (hne : deck ≠ []) {ps : PickerState}
    {ds : DraftState} (h : PickInv deck ps ds) (c : Int) :
    PickInv deck (pickStep deck (ps, ds) c).1 (pickStep deck (ps, ds) c).2 ∧
    (pickStep deck (ps, ds) c).2.spreadType = ds.spreadType ∧
    (pickStep deck (ps, ds) c).2.pickedCards.length ≤
      max ds.pickedCards.length (requiredCardCount ds.spreadType) := by
  unfold pickStep
  by_cases hfull : ds.pickedCards.length ≥ requiredCardCount ds.spreadType
  · simp only [hfull, if_true]
    refine ⟨h, ?_, Nat.le_max_left _ _⟩
    trivial
  · simp only [hfull, if_false]
    rcases h with ⟨hmap, hnodup, hbound⟩
    cases hpk : handlePick deck { ps with currentIndex := c } with
    | mk ps2 oc =>
        cases oc with
        | none =>
            have hps2 : ps2 = { ps with currentIndex := c } :=
              handlePick_none deck hne hpk
            subst hps2
            exact ⟨⟨hmap, hnodup, hbound⟩, rfl, Nat.le_max_left _ _⟩
        | some card =>
            rcases handlePick_some deck hpk with ⟨s, hpi, hps2, hget⟩
            have hfresh := pickIndex_some deck hne hpi
            subst hps2
            refine ⟨⟨?_, ?_, ?_⟩, rfl, ?_⟩
            · simp only [onPickCard]
              rw [hmap, List.map_append]
              simp [dget_eq_of_get? deck hget]
            · simp only []
              rw [List.nodup_append]
              refine ⟨hnodup, List.nodup_singleton s, ?_⟩
              intro a ha hb
              rw [List.mem_singleton] at hb
              subst hb
              exact hfresh.2 ha
            · intro i hi
              simp only [List.mem_append, List.mem_singleton] at hi
              rcases hi with hi | hi
              · exact hbound i hi
              · subst hi
                exact hfresh.1
            · simp only [onPickCard, List.length_append, List.length_singleton]
              omega

lemma runPicks_inv (deck : List Card) (hne : deck ≠ []) :
    ∀ (cursors : List Int) {ps : PickerState} {ds : DraftState},
      PickInv deck ps ds →
      ds.pickedCards.length ≤ requiredCardCount ds.spreadType →
      PickInv deck (runPicks deck (ps, ds) cursors).1 (runPicks deck (ps, ds) cursors).2 ∧
      (runPicks deck (ps, ds) cursors).2.spreadType = ds.spreadType ∧
      (runPicks deck (ps, ds) cursors).2.pickedCards.length ≤
        requiredCardCount ds.spreadType := by
  intro cursors
  induction cursors with
  | nil =>
      intro ps ds h hlen
      exact ⟨h, rfl, hlen⟩
  | cons c cs ih =>
      intro ps ds h hlen
      have hstep := pickStep_inv deck hne h c
      rcases hpk : pickStep deck (ps, ds) c with ⟨ps2, ds2⟩
      rw [hpk] at hstep
      simp only at hstep
      have hlen2 : ds2.pickedCards.length ≤ requiredCardCount ds2.spreadType := by
        rw [hstep.2.1]
        omega
      have hrun := ih hstep.1 hlen2
      simp only [runPicks, hpk]
      refine ⟨hrun.1, ?_, ?_⟩
      · rw [hrun.2.1, hstep.2.1]
      · rw [← hstep.2.1]
        exact hrun.2.2

lemma pickInv_nodup_codes (deck : List Card)
    (hnd : (deck.map Card.code).Nodup) {ps : PickerState} {ds : DraftState}
    (h : PickInv deck ps ds) : (ds.pickedCards.map Card.code).Nodup := by
  rcases h with ⟨hmap, hnodup, hbound⟩
  rw [hmap, List.map_map]
  apply List.Nodup.map_on ?_ hnodup
  intro i hi j hj hfe
  have hi2 : i < deck.length := hbound i hi
  have hj2 : j < deck.length := hbound j hj
  have hgi : dget deck i = deck[i] := by
    unfold dget
    rw [List.getD_eq_getElem?_getD, List.getElem?_eq_getElem hi2]
    rfl
  have hgj : dget deck j = deck[j] := by
    unfold dget
    rw [List.getD_eq_getElem?_getD, List.getElem?_eq_getElem hj2]
    rfl
  have hmi : i < (deck.map Card.code).length := by
    rw [List.length_map]
    exact hi2
  have hmj : j < (deck.map Card.code).length := by
    rw [List.length_map]
    exact hj2
  have hcode : (deck.map Card.code)[i] = (deck.map Card.code)[j] := by
    rw [List.getElem_map, List.getElem_map]
    simpa [hgi, hgj] using hfe
  have hinj := List.nodup_iff_injective_getElem.mp hnd
  have heq : (⟨i, hmi⟩ : Fin (deck.map Card.code).length)
      = (⟨j, hmj⟩ : Fin (deck.map Card.code).length) := by
    apply hinj
    simpa using hcode
  simpa using congrArg Fin.val heq

/-- Three-card example catalogue with distinct codes. -/
def deck3 : List Card :=
  [{ code := "a", name := "A" }, { code := "b", name := "B" }, { code := "c", name := "C" }]

/-- Two-card example catalogue, used for the exhaustion scenario. -/
def deck2 : List Card :=
  [{ code := "a", name := "A" }, { code := "b", name := "B" }]

/-- C7: for every integer cursor and positive catalogue length N, the
deck-window resolution equals ((cursor mod N) + N) mod N, lies in [0, N)
also for negative cursors, and is periodic with period N; the clampIndex
variant from the other carousel iteration computes the same value. -/
theorem C7_resolve_mod (cursor : Int) (N : Nat) (h : 0 < N) :
    ((jsSafeIndex cursor N : Int) = ((cursor % (N : Int)) + N) % N) ∧
    jsSafeIndex cursor N < N ∧
    jsSafeIndex (cursor + N) N = jsSafeIndex cursor N ∧
    clampIndex cursor N = (jsSafeIndex cursor N : Int) := by
  have he := jsSafeIndex_eq_emod cursor h
  refine ⟨?_, jsSafeIndex_lt cursor h, ?_, ?_⟩
  · rw [he, Int.add_emod_self, Int.emod_emod]
  · have he2 := jsSafeIndex_eq_emod (cursor + (N : Int)) h
    rw [Int.add_emod_self] at he2
    have hq : (jsSafeIndex (cursor + (N : Int)) N : Int) = (jsSafeIndex cursor N : Int) := by
      rw [he2, he]
    exact_mod_cast hq
  · rw [clampIndex_eq_emod cursor h, he]

/-- C7 witness: the general theorem applied at cursor -7, N = 3. -/
theorem C7_witness :
    0 < 3 ∧
    (((jsSafeIndex (-7) 3 : Int) = (((-7 : Int) % (3 : Int)) + 3) % 3) ∧
     jsSafeIndex (-7) 3 < 3 ∧
     jsSafeIndex (-7 + 3) 3 = jsSafeIndex (-7) 3 ∧
     clampIndex (-7) 3 = (jsSafeIndex (-7) 3 : Int)) :=
  ⟨by decide, C7_resolve_mod (-7) 3 (by decide)⟩

/-- C9: the source does NOT discard a stale response. With a submission in
flight and reset already processed (currentSpread = none, the picking
form), the resolving handleCreateSpread continuation unconditionally
stores the stale detail, flipping the spreads tab to the result view
instead of staying in picking. This contradicts the claim and matches the
race the specification itself flags as unaddressed in the source. -/
theorem C9_stale_response_stored :
    (handleCreateSpreadResolve
      (handleResetCurrentSpread
        (handleCreateSpreadStart
          { currentSpread := none, loading := false, isInterpreting := false, error := none }))
      (some { id := 7 })).currentSpread = some { id := 7 } := rfl

/-- C10: apiRequest maps every fetch outcome (network failure, 204, an
unparseable body, any HTTP status) to an { ok, data, error } record — it
is a total function, never a thrown error — and ok is true exactly when
the request succeeded (204, or a parseable 2xx response). -/
theorem C10_apiRequest_total (outcome : FetchOutcome) :
    (apiRequest outcome).ok = requestSucceeded outcome := by
  cases outcome with
  | networkError => rfl
  | response status body =>
      unfold apiRequest requestSucceeded
      by_cases h204 : status = 204
      · simp [h204, statusOk]
      · cases body with
        | none => simp [h204]
        | some json =>
            by_cases hok : statusOk status
            · simp [h204, hok]
            · simp [h204, hok]

/-- C5: after any sequence of setCategory / toggle / setText operations on
a "three" draft, the built payload never carries both a non-null category
and a non-null question; and setCategory is a rejected no-op while
useCustomQuestion is on. -/
theorem C5_mutual_exclusion (ds : DraftState) (ops : List CatOp)
    (h : ds.spreadType = SpreadType.three) :
    (¬ ((buildPayload (runCatOps ds ops)).category.isSome = true ∧
        (buildPayload (runCatOps ds ops)).question.isSome = true)) ∧
    (∀ ds2 : DraftState, ∀ c : String, ds2.useCustomQuestion = true →
      handleCategoryChange ds2 c = ds2) := by
  constructor
  · generalize runCatOps ds ops = ds2
    rcases ds2 with ⟨st, cat, q, ucq, pc, sub, err⟩
    cases st <;> cases ucq <;> simp [buildPayload]
  · intro ds2 c h2
    unfold handleCategoryChange
    rw [if_pos h2]

/-- Example three-card draft reached through the UI entry point. -/
def exampleThreeDraft : DraftState :=
  handleChangeSpreadType initialDraft SpreadType.three

/-- Example operation sequence: enable the custom question, type a
question, then try to select a category (which must be ignored). -/
def exampleCatOps : List CatOp :=
  [CatOp.toggleCustom, CatOp.setText "сложный вопрос", CatOp.setCat "love"]

/-- Example draft with the custom question enabled. -/
def exampleCustomDraft : DraftState :=
  toggleUseCustomQuestion exampleThreeDraft

/-- C5 witness: the theorem applied to a concrete "three" draft, a
concrete operation sequence, and a concrete custom-question draft. -/
theorem C5_witness :
    (¬ ((buildPayload (runCatOps exampleThreeDraft exampleCatOps)).category.isSome = true ∧
        (buildPayload (runCatOps exampleThreeDraft exampleCatOps)).question.isSome = true)) ∧
    handleCategoryChange exampleCustomDraft "career" = exampleCustomDraft :=
  ⟨(C5_mutual_exclusion exampleThreeDraft exampleCatOps rfl).1,
   (C5_mutual_exclusion exampleThreeDraft exampleCatOps rfl).2 exampleCustomDraft "career" rfl⟩

/-- Concrete draft that fails validation: "three" without a custom
question and with a null category. -/
def invalidDraft : DraftState :=
  { spreadType := .three
    category := none
    customQuestion := ""
    useCustomQuestion := false
    pickedCards := []
    isSubmitting := false
    error := none }

/-- C8 counterexample: a submit on a draft failing validation does leave
the error message changed — the draft state is NOT left unchanged as the
claim states (no network call is made, though). -/
theorem C8_counterexample :
    isReadyToSubmit invalidDraft = false ∧
    (handleSubmit invalidDraft true NetResult.success).2 = [] ∧
    (handleSubmit invalidDraft true NetResult.success).1 ≠ invalidDraft := by
  refine ⟨rfl, rfl, ?_⟩
  intro h
  have := congrArg DraftState.error h
  simp [handleSubmit, invalidDraft, validationError, strOptFalsy] at this

/-- C8 amended: a submit while a previous submission is in flight is a
complete no-op with no network call; a submit while validation fails makes
no network call and changes only the error-message field; an accepted
submit invokes the network collaborator exactly once, with the payload
built from the draft. -/
theorem C8_submit_guards (ds : DraftState) (hasHandler : Bool) (net : NetResult) :
    (ds.isSubmitting = true → handleSubmit ds hasHandler net = (ds, [])) ∧
    (isReadyToSubmit ds = false →
      (handleSubmit ds hasHandler net).2 = [] ∧
      (handleSubmit ds hasHandler net).1.spreadType = ds.spreadType ∧
      (handleSubmit ds hasHandler net).1.category = ds.category ∧
      (handleSubmit ds hasHandler net).1.customQuestion = ds.customQuestion ∧
      (handleSubmit ds hasHandler net).1.useCustomQuestion = ds.useCustomQuestion ∧
      (handleSubmit ds hasHandler net).1.pickedCards = ds.pickedCards ∧
      (handleSubmit ds hasHandler net).1.isSubmitting = ds.isSubmitting) ∧
    (ds.isSubmitting = false → isReadyToSubmit ds = true →
      (handleSubmit ds true net).2 = [buildPayload ds]) := by
  refine ⟨?_, ?_, ?_⟩
  · intro hsub
    unfold handleSubmit
    rw [if_pos]
    simp [hsub]
  · intro hnr
    unfold handleSubmit
    by_cases hg : (!hasHandler || ds.isSubmitting) = true
    · rw [if_pos hg]
      simp
    · rw [if_neg hg]
      unfold isReadyToSubmit at hnr
      cases hve : validationError ds with
      | none => rw [hve] at hnr; simp at hnr
      | some msg => simp
  · intro hsub hr
    unfold handleSubmit
    rw [if_neg]
    · unfold isReadyToSubmit at hr
      cases hve : validationError ds with
      | none => cases net <;> simp
      | some msg => rw [hve] at hr; simp at hr
    · simp [hsub]

/-- Concrete valid one-card draft: one picked card, nothing in flight. -/
def readyOneDraft : DraftState :=
  { spreadType := .one
    category := some "daily"
    customQuestion := ""
    useCustomQuestion := false
    pickedCards := [{ code := "a", name := "A" }]
    isSubmitting := false
    error := none }

/-- Concrete draft with a submission in flight. -/
def inFlightDraft : DraftState :=
  { initialDraft with isSubmitting := true }

/-- C8 witness: the three guard conclusions at concrete drafts. -/
theorem C8_witness :
    handleSubmit inFlightDraft true NetResult.success = (inFlightDraft, []) ∧
    (handleSubmit invalidDraft true NetResult.failure).2 = [] ∧
    (handleSubmit readyOneDraft true NetResult.success).2 = [buildPayload readyOneDraft] :=
  ⟨(C8_submit_guards inFlightDraft true NetResult.success).1 rfl,
   ((C8_submit_guards invalidDraft true NetResult.failure).2.1 rfl).1,
   (C8_submit_guards readyOneDraft true NetResult.success).2.2 rfl rfl⟩

/-- The duplicate-resolution scan as the C3 claim words it: examine
catalogue indices in order starting immediately after the resolved index
and return the first not-yet-used one. This definition follows the claim
text and exists only to be compared against the source scan in pickIndex. -/
def claimScanAfter (deck : List Card) (usedIndices : List Nat) (resolved : Nat) : Option Nat :=
  ((List.range deck.length).filter
    (fun i => decide (resolved < i ∧ ¬ i ∈ usedIndices))).head?

/-- C3 counterexample: three-card catalogue, cursor resolved to index 1
which is already used. The source delivers the card at index 0 — the
first unused index counted from the start of the catalogue — while the
claim's scan starting immediately after the resolved index would deliver
index 2, a different card. -/
theorem C3_counterexample :
    (handlePick deck3 { currentIndex := 1, usedIndices := [1] }).2
        = some { code := "a", name := "A" } ∧
    claimScanAfter deck3 [1] 1 = some 2 ∧
    deck3.get? 2 = some { code := "c", name := "C" } ∧
    ({ code := "a", name := "A" } : Card) ≠ { code := "c", name := "C" } := by
  refine ⟨rfl, rfl, rfl, ?_⟩
  intro h
  exact absurd (congrArg Card.code h) (by decide)

/-- C3 amended: when the cursor resolves to an already-used index, the
picker scans the catalogue in index order starting from index 0 (not from
just after the resolved index) and delivers the card at the first index
not yet used. -/
theorem C3_scan_from_start (deck : List Card)
    (ps : PickerState)
    (hused : jsSafeIndex ps.currentIndex (cardsCountOf deck) ∈ ps.usedIndices)
    (j : Nat)
    (hj : ((List.range (cardsCountOf deck)).filter
        (fun i => ¬ i ∈ ps.usedIndices)).head? = some j) :
    handlePick deck ps
      = ({ ps with usedIndices := ps.usedIndices ++ [j] }, deck.get? j) := by
  unfold handlePick pickIndex
  rw [if_pos hused, hj]

/-- C3 witness: the amended scan theorem at the counterexample input. -/
theorem C3_witness :
    jsSafeIndex (1 : Int) (cardsCountOf deck3) ∈ [1] ∧
    ((List.range (cardsCountOf deck3)).filter (fun i => ¬ i ∈ [1])).head? = some 0 ∧
    handlePick deck3 { currentIndex := 1, usedIndices := [1] }
      = ({ currentIndex := 1, usedIndices := [1] ++ [0] }, deck3.get? 0) :=
  ⟨by decide, by decide,
   C3_scan_from_start deck3 { currentIndex := 1, usedIndices := [1] }
     (by decide) 0 (by decide)⟩

/-- C4 counterexample: catalogue of size 2 on a "three" draft. After two
picks both catalogue indices are used; the third pick is a silent early
return — no card is delivered, picker and draft are unchanged — rather
than a pick failing with an ExhaustedDeckError (no such error value exists
anywhere in the code, and nothing is surfaced). -/
theorem C4_counterexample :
    (handlePick deck2 { currentIndex := 0, usedIndices := [0, 1] }).2 = none ∧
    (handlePick deck2 { currentIndex := 0, usedIndices := [0, 1] }).1
        = { currentIndex := 0, usedIndices := [0, 1] } ∧
    runPicks deck2 (initPicker, handleChangeSpreadType initialDraft SpreadType.three)
        [0, 0, 0]
      = runPicks deck2 (initPicker, handleChangeSpreadType initialDraft SpreadType.three)
        [0, 0] := by
  refine ⟨rfl, rfl, ?_⟩
  decide

/-- C4 amended: when every catalogue index is already used, handlePick
returns early with no card delivered and the picker state unchanged, and
the whole pick event leaves the draft untouched; no error is raised. -/
theorem C4_exhausted_noop (deck : List Card) (ps : PickerState)
    (hused : jsSafeIndex ps.currentIndex (cardsCountOf deck) ∈ ps.usedIndices)
    (hexh : (List.range (cardsCountOf deck)).filter
        (fun i => ¬ i ∈ ps.usedIndices) = []) :
    handlePick deck ps = (ps, none) ∧
    ∀ ds : DraftState, pickStep deck (ps, ds) ps.currentIndex = (ps, ds) := by
  have hnone : handlePick deck ps = (ps, none) := by
    unfold handlePick pickIndex
    rw [if_pos hused, hexh]
    rfl
  refine ⟨hnone, ?_⟩
  intro ds
  simp only [pickStep]
  by_cases hfull : ds.pickedCards.length ≥ requiredCardCount ds.spreadType
  · rw [if_pos hfull]
  · rw [if_neg hfull]
    have hps : ({ ps with currentIndex := ps.currentIndex } : PickerState) = ps := rfl
    rw [hps, hnone]

/-- C4 witness: the exhausted pick at the concrete two-card catalogue. -/
theorem C4_witness :
    handlePick deck2 { currentIndex := 0, usedIndices := [0, 1] }
      = ({ currentIndex := 0, usedIndices := [0, 1] }, none) ∧
    pickStep deck2 ({ currentIndex := 0, usedIndices := [0, 1] }, initialDraft) 0
      = ({ currentIndex := 0, usedIndices := [0, 1] }, initialDraft) :=
  ⟨(C4_exhausted_noop deck2 { currentIndex := 0, usedIndices := [0, 1] }
      (by decide) (by decide)).1,
   (C4_exhausted_noop deck2 { currentIndex := 0, usedIndices := [0, 1] }
      (by decide) (by decide)).2 initialDraft⟩

/-- C1: within one draft lifetime (fresh picker, empty picked list), any
sequence of pick events delivers cards with pairwise-distinct codes into
the draft: the picked list — which receives exactly the cards passed to
onPickCard — never holds two cards with the same code, provided the
catalogue is nonempty with unique codes (the catalogue contract). -/
theorem C1_no_duplicate_picks (deck : List Card) (hne : deck ≠ [])
    (hcodes : (deck.map Card.code).Nodup) (ds0 : DraftState)
    (h0 : ds0.pickedCards = []) (cursors : List Int) :
    ((runPicks deck (initPicker, ds0) cursors).2.pickedCards.map Card.code).Nodup := by
  have hinv : PickInv deck initPicker ds0 := by
    refine ⟨?_, ?_, ?_⟩
    · rw [h0]; rfl
    · exact List.nodup_nil
    · intro i hi
      simp [initPicker] at hi
  have hlen : ds0.pickedCards.length ≤ requiredCardCount ds0.spreadType := by
    rw [h0]
    exact Nat.zero_le _
  exact pickInv_nodup_codes deck hcodes (runPicks_inv deck hne cursors hinv hlen).1

/-- C1 witness: three-card catalogue, picks at cursors 0, 5 and -1. -/
theorem C1_witness :
    deck3 ≠ [] ∧ (deck3.map Card.code).Nodup ∧ initialDraft.pickedCards = [] ∧
    ((runPicks deck3 (initPicker, initialDraft) [0, 5, -1]).2.pickedCards.map
        Card.code).Nodup :=
  ⟨by decide, by decide, rfl,
   C1_no_duplicate_picks deck3 (by decide) (by decide) initialDraft rfl [0, 5, -1]⟩

/-- C2: over any sequence of pick events from a fresh draft, the picked
list never exceeds requiredCardCount (1 for "one", 3 for "three"); once
the draft is full a pick event is rejected (leaves picker and draft
unchanged, since the carousel is unmounted); and no card with an
already-present code is ever appended (the codes stay pairwise distinct,
given the unique-code catalogue contract). -/
theorem C2_cardinality (deck : List Card) (hne : deck ≠ [])
    (hcodes : (deck.map Card.code).Nodup) (ds0 : DraftState)
    (h0 : ds0.pickedCards = []) (cursors : List Int) :
    requiredCardCount SpreadType.one = 1 ∧
    requiredCardCount SpreadType.three = 3 ∧
    (runPicks deck (initPicker, ds0) cursors).2.pickedCards.length
        ≤ requiredCardCount (runPicks deck (initPicker, ds0) cursors).2.spreadType ∧
    (∀ c : Int,
      (runPicks deck (initPicker, ds0) cursors).2.pickedCards.length
          = requiredCardCount (runPicks deck (initPicker, ds0) cursors).2.spreadType →
      pickStep deck (runPicks deck (initPicker, ds0) cursors) c
          = runPicks deck (initPicker, ds0) cursors) ∧
    ((runPicks deck (initPicker, ds0) cursors).2.pickedCards.map Card.code).Nodup := by
  have hinv : PickInv deck initPicker ds0 := by
    refine ⟨?_, ?_, ?_⟩
    · rw [h0]; rfl
    · exact List.nodup_nil
    · intro i hi
      simp [initPicker] at hi
  have hlen : ds0.pickedCards.length ≤ requiredCardCount ds0.spreadType := by
    rw [h0]
    exact Nat.zero_le _
  have hrun := runPicks_inv deck hne cursors hinv hlen
  refine ⟨rfl, rfl, ?_, ?_, ?_⟩
  · rw [hrun.2.1]
    exact hrun.2.2
  · intro c hfull
    rcases hres : runPicks deck (initPicker, ds0) cursors with ⟨ps, ds⟩
    rw [hres] at hfull
    simp only at hfull
    simp only [pickStep]
    rw [if_pos (Nat.le_of_eq hfull.symm)]
  · exact pickInv_nodup_codes deck hcodes hrun.1

/-- C2 witness: the cardinality bound at a concrete two-pick run. -/
theorem C2_witness :
    deck3 ≠ [] ∧ (deck3.map Card.code).Nodup ∧ initialDraft.pickedCards = [] ∧
    (runPicks deck3 (initPicker, initialDraft) [0, 1]).2.pickedCards.length
        ≤ requiredCardCount (runPicks deck3 (initPicker, initialDraft) [0, 1]).2.spreadType :=
  ⟨by decide, by decide, rfl,
   (C2_cardinality deck3 (by decide) (by decide) initialDraft rfl [0, 1]).2.2.1⟩

/-- C6 counterexample: selecting the one-card spread and making one pick,
the built payload carries category = null, not "daily" — the source
deliberately leaves it null and lets the backend substitute "daily". -/
theorem C6_counterexample :
    (buildPayload (runPicks deck3
        (initPicker, handleChangeSpreadType initialDraft SpreadType.one) [0]).2).category
      ≠ some "daily" := by
  decide

/-- C6 amended: after setSpreadType("one") and one successful pick the
draft holds exactly one card and is ready to submit, and buildPayload
yields a payload whose category is null (the backend substitutes the
"daily" category) and whose question is null. -/
theorem C6_one_card_scenario (deck : List Card) (hne : deck ≠ [])
    (ds0 : DraftState) (c : Int) :
    (runPicks deck (initPicker, handleChangeSpreadType ds0 SpreadType.one)
        [c]).2.pickedCards.length = 1 ∧
    isReadyToSubmit (runPicks deck (initPicker, handleChangeSpreadType ds0 SpreadType.one)
        [c]).2 = true ∧
    (buildPayload (runPicks deck (initPicker, handleChangeSpreadType ds0 SpreadType.one)
        [c]).2).category = none ∧
    (buildPayload (runPicks deck (initPicker, handleChangeSpreadType ds0 SpreadType.one)
        [c]).2).question = none := by
  have hpi : pickIndex deck { currentIndex := c, usedIndices := [] }
      = some (jsSafeIndex c (cardsCountOf deck)) := by
    unfold pickIndex
    rw [if_neg]
    simp
  have hlt : jsSafeIndex c (cardsCountOf deck) < deck.length := by
    rw [cardsCountOf_eq deck hne]
    exact jsSafeIndex_lt c (List.length_pos.mpr hne)
  obtain ⟨card, hcard⟩ :
      ∃ card, deck[jsSafeIndex c (cardsCountOf deck)]? = some card := by
    rw [List.getElem?_eq_getElem hlt]
    exact ⟨_, rfl⟩
  have hhp : handlePick deck { currentIndex := c, usedIndices := [] }
      = ({ currentIndex := c, usedIndices := [] ++ [jsSafeIndex c (cardsCountOf deck)] },
         some card) := by
    simp [handlePick, hpi, hcard]
  have hfull : ¬ ((handleChangeSpreadType ds0 SpreadType.one).pickedCards.length
      ≥ requiredCardCount (handleChangeSpreadType ds0 SpreadType.one).spreadType) := by
    simp [handleChangeSpreadType, requiredCardCount]
  have hrun : runPicks deck (initPicker, handleChangeSpreadType ds0 SpreadType.one) [c]
      = ({ currentIndex := c, usedIndices := [] ++ [jsSafeIndex c (cardsCountOf deck)] },
         onPickCard (handleChangeSpreadType ds0 SpreadType.one) card) := by
    simp only [runPicks, pickStep]
    rw [if_neg hfull]
    have hip : ({ initPicker with currentIndex := c } : PickerState)
        = { currentIndex := c, usedIndices := [] } := rfl
    rw [hip, hhp]
  rw [hrun]
  refine ⟨?_, ?_, ?_, ?_⟩ <;>
    simp [onPickCard, handleChangeSpreadType, isReadyToSubmit, validationError,
      requiredCardCount, buildPayload]

/-- C6 witness: the amended scenario at the three-card catalogue. -/
theorem C6_witness :
    deck3 ≠ [] ∧
    (runPicks deck3 (initPicker, handleChangeSpreadType initialDraft SpreadType.one)
        [0]).2.pickedCards.length = 1 ∧
    isReadyToSubmit (runPicks deck3
        (initPicker, handleChangeSpreadType initialDraft SpreadType.one) [0]).2 = true ∧
    (buildPayload (runPicks deck3
        (initPicker, handleChangeSpreadType initialDraft SpreadType.one) [0]).2).category
      = none :=
  ⟨by decide,
   (C6_one_card_scenario deck3 (by decide) initialDraft 0).1,
   (C6_one_card_scenario deck3 (by decide) initialDraft 0).2.1,
   (C6_one_card_scenario deck3 (by decide) initialDraft 0).2.2.1⟩
